import Mathlib

/-!
Shallow embedding of `orderfilter/validate_js.go` (package `orderfilter`),
the browser/Wasm order-filter of 0x-mesh, together with proofs of the
behavioural properties of its public operations.

The Go file calls into a foreign JavaScript validation engine through the
JS global object (`js.Global().Call("orderValidator", ...)` and
`js.Global().Call("messageValidator", ...)`).  The engine returns a JS
object with fields `fatal` (possibly null/undefined), `success` (a bool)
and `errors` (a list of strings).  We embed that foreign engine as a pair
of functions from the JSON document (Go `[]byte`/`string`, modelled as a
Lean `String`) to such a structured result; all filter operations are
parametrised by this embedded global object.  Fallible Go functions
(returning `(T, error)`) are embedded as `Except String T`.
-/

namespace Orderfilter

/-- The structured result returned by a call into the foreign JavaScript
validation engine: field `fatal` is `none` when the JS `fatal` property is
null or undefined (`jsutil.IsNullOrUndefined`), otherwise `some` of its
string value; `success` and `errors` embed the `success` and `errors`
properties. -/
structure EngineResult where
  fatal : Option String
  success : Bool
  errors : List String
deriving DecidableEq, Repr

/-- Embedding of the JS global object as seen by `validate_js.go`: the two
globally-registered validator functions, `orderValidator` and
`messageValidator`, each mapping a JSON document to an engine result. -/
structure JsGlobal where
  orderValidator : String → EngineResult
  messageValidator : String → EngineResult

/-- `SchemaValidationResult` from `validate_js.go`: `valid` flag plus the
list of error messages (each one the rendering of
`fmt.Errorf("js error: %s", e)`). -/
structure SchemaValidationResult where
  valid : Bool
  errors : List String
deriving DecidableEq, Repr

/-- Method `(*SchemaValidationResult).Valid`. -/
def SchemaValidationResult.Valid (s : SchemaValidationResult) : Bool :=
  s.valid

/-- Method `(*SchemaValidationResult).Errors`. -/
def SchemaValidationResult.Errors (s : SchemaValidationResult) : List String :=
  s.errors

/-- `(*Filter).ValidateOrderJSON`: call the global `orderValidator` on the
document; if the result's `fatal` field is present, fail with
`fmt.Errorf("js error: %s", fatal)`; otherwise build a
`SchemaValidationResult` from the `success` flag and the `errors` list,
wrapping each engine error as `fmt.Errorf("js error: %s", e)`. -/
def ValidateOrderJSON (g : JsGlobal) (orderJSON : String) :
    Except String SchemaValidationResult :=
  let jsResult := g.orderValidator orderJSON
  match jsResult.fatal with
  | some fatal => .error ("js error: " ++ fatal)
  | none =>
      let errors := jsResult.errors.map (fun e => "js error: " ++ e)
      .ok { valid := jsResult.success, errors := errors }

/-- `(*Filter).MatchOrderMessageJSON`: call the global `messageValidator`
on the message document; if `fatal` is present fail with
`fmt.Errorf("js error: %s", fatal)`, else return the `success` flag. -/
def MatchOrderMessageJSON (g : JsGlobal) (messageJSON : String) :
    Except String Bool :=
  let jsResult := g.messageValidator messageJSON
  match jsResult.fatal with
  | some fatal => .error ("js error: " ++ fatal)
  | none => .ok jsResult.success

/-- Modelled from the spec: `zeroex.SignedOrder` is defined outside this
slice and is opaque here; the only operation the filter uses is
`MarshalJSON`, the canonical JSON serialization of the order, which either
fails with an error or yields the JSON document.  We embed an order by the
outcome of that serialization. -/
structure SignedOrder where
  marshalJSON : Except String String

/-- `(*Filter).ValidateOrder`: serialize the order with
`order.MarshalJSON()`; on serialization error propagate that error,
otherwise delegate to `ValidateOrderJSON` on the serialized document. -/
def ValidateOrder (g : JsGlobal) (order : SignedOrder) :
    Except String SchemaValidationResult :=
  match order.marshalJSON with
  | .error err => .error err
  | .ok orderJSON => ValidateOrderJSON g orderJSON

/-- `(*Filter).MatchOrder`: run `ValidateOrder`; propagate its error,
otherwise return `result.Valid()`. -/
def MatchOrder (g : JsGlobal) (order : SignedOrder) : Except String Bool :=
  match ValidateOrder g order with
  | .error err => .error err
  | .ok result => .ok result.Valid

/-- The cancellation context handed to the pubsub validator
(`context.Context`); opaque to the filter, so embedded as an arbitrary
inhabited type. -/
abbrev Context := Nat

/-- `peer.ID` of the sending peer; in libp2p a string-typed identifier. -/
abbrev PeerID := String

/-- `pubsub.Message`, restricted to the single field the validator reads:
the payload bytes `msg.Data`. -/
structure Message where
  Data : String

/-- One entry of the structured log, as produced by
`log.WithError(err).Error(text)`. -/
structure LogEntry where
  err : String
  text : String
deriving DecidableEq, Repr

/-- `(*Filter).ValidatePubSubMessage`: call `MatchOrderMessageJSON` on
`msg.Data`; on error, log `"MatchOrderMessageJSON returned an error"` with
the error and return `false`; otherwise return the boolean result.  The Go
function returns only the boolean; the log side channel is made explicit
as the second component. -/
def ValidatePubSubMessage (g : JsGlobal) (ctx : Context) (sender : PeerID)
    (msg : Message) : Bool × List LogEntry :=
  match MatchOrderMessageJSON g msg.Data with
  | .error err =>
      (false, [{ err := err, text := "MatchOrderMessageJSON returned an error" }])
  | .ok isValid => (isValid, [])

/-- A well-behaved engine: both validators accept every document with no
errors (Scenario A). -/
def engAccept : JsGlobal :=
  { orderValidator := fun _ => { fatal := none, success := true, errors := [] }
    messageValidator := fun _ => { fatal := none, success := true, errors := [] } }

/-- A rejecting engine: both validators reject every document with one
diagnostic (Scenario B). -/
def engReject : JsGlobal :=
  { orderValidator := fun _ =>
      { fatal := none, success := false, errors := ["missing field: makerAddress"] }
    messageValidator := fun _ =>
      { fatal := none, success := false, errors := ["missing field: makerAddress"] } }

/-- A broken engine: both validators signal a fatal failure (Scenario C).
The `success` and `errors` fields carry junk on purpose. -/
def engFatal : JsGlobal :=
  { orderValidator := fun _ =>
      { fatal := some "engine not initialized", success := true, errors := ["junk"] }
    messageValidator := fun _ =>
      { fatal := some "engine not initialized", success := true, errors := ["junk"] } }

/-- An engine violating its contract: `success = true` together with a
non-empty error list. -/
def engBadContract : JsGlobal :=
  { orderValidator := fun _ =>
      { fatal := none, success := true, errors := ["spurious"] }
    messageValidator := fun _ =>
      { fatal := none, success := true, errors := ["spurious"] } }

/-- An order whose canonical serialization succeeds with document `"{}"`. -/
def orderGood : SignedOrder := { marshalJSON := .ok "\x7b\x7d" }

/-- An order whose canonical serialization fails. -/
def orderBad : SignedOrder := { marshalJSON := .error "json: unsupported value" }

/-- C1: `ValidatePubSubMessage` is total (it always returns a boolean plus
a log, never an error): when `MatchOrderMessageJSON` on the payload fails
with an error it logs that error under `"MatchOrderMessageJSON returned an
error"` and returns `false`, and otherwise it returns exactly the boolean
`MatchOrderMessageJSON` produced, logging nothing. -/
theorem validatePubSubMessage_total_spec (g : JsGlobal) (ctx : Context)
    (sender : PeerID) (msg : Message) :
    (∀ e, MatchOrderMessageJSON g msg.Data = .error e →
      ValidatePubSubMessage g ctx sender msg =
        (false, [{ err := e, text := "MatchOrderMessageJSON returned an error" }])) ∧
    (∀ b, MatchOrderMessageJSON g msg.Data = .ok b →
      ValidatePubSubMessage g ctx sender msg = (b, [])) := by
  constructor
  · intro e he
    simp [ValidatePubSubMessage, he]
  · intro b hb
    simp [ValidatePubSubMessage, hb]

/-- Witness for C1: a fatal engine makes the adapter log and reject, and an
accepting engine makes it accept, at concrete inputs. -/
theorem validatePubSubMessage_total_spec_witness :
    ValidatePubSubMessage engFatal 0 "peerA" { Data := "payload" } =
      (false, [{ err := "js error: engine not initialized",
                 text := "MatchOrderMessageJSON returned an error" }]) ∧
    ValidatePubSubMessage engAccept 0 "peerA" { Data := "payload" } = (true, []) :=
  ⟨(validatePubSubMessage_total_spec engFatal 0 "peerA" { Data := "payload" }).1
      "js error: engine not initialized" rfl,
   (validatePubSubMessage_total_spec engAccept 0 "peerA" { Data := "payload" }).2
      true rfl⟩

/-- C2: a fatal engine signal makes every public operation of the filter
(`ValidateOrderJSON`, `ValidateOrder`, `MatchOrder`,
`MatchOrderMessageJSON`) fail with the error `"js error: " ++ fatal`, and
on that path the engine's `success` and `errors` fields are never read:
the outputs agree for any two engines whose results carry the same fatal
string. -/
theorem fatal_engine_always_errors (g : JsGlobal) (doc : String) (f : String) :
    ((g.orderValidator doc).fatal = some f →
      ValidateOrderJSON g doc = .error ("js error: " ++ f)) ∧
    ((g.messageValidator doc).fatal = some f →
      MatchOrderMessageJSON g doc = .error ("js error: " ++ f)) ∧
    (∀ order : SignedOrder, order.marshalJSON = .ok doc →
      (g.orderValidator doc).fatal = some f →
      ValidateOrder g order = .error ("js error: " ++ f) ∧
      MatchOrder g order = .error ("js error: " ++ f)) ∧
    (∀ g' : JsGlobal, (g.orderValidator doc).fatal = some f →
      (g'.orderValidator doc).fatal = some f →
      ValidateOrderJSON g doc = ValidateOrderJSON g' doc) := by
  refine ⟨fun h => ?_, fun h => ?_, fun order hser h => ?_, fun g' h h' => ?_⟩
  · simp [ValidateOrderJSON, h]
  · simp [MatchOrderMessageJSON, h]
  · have hv : ValidateOrder g order = .error ("js error: " ++ f) := by
      simp [ValidateOrder, hser, ValidateOrderJSON, h]
    exact ⟨hv, by simp [MatchOrder, hv]⟩
  · simp [ValidateOrderJSON, h, h']

/-- Witness for C2: all four operations fail on the concrete fatal
engine. -/
theorem fatal_engine_always_errors_witness :
    ValidateOrderJSON engFatal "doc" = .error "js error: engine not initialized" ∧
    MatchOrderMessageJSON engFatal "doc" = .error "js error: engine not initialized" ∧
    ValidateOrder engFatal { marshalJSON := .ok "doc" } =
      .error "js error: engine not initialized" ∧
    MatchOrder engFatal { marshalJSON := .ok "doc" } =
      .error "js error: engine not initialized" := by
  have h := fatal_engine_always_errors engFatal "doc" "engine not initialized"
  have h3 := h.2.2.1 { marshalJSON := .ok "doc" } rfl rfl
  exact ⟨h.1 rfl, h.2.1 rfl, h3.1, h3.2⟩

/-- C3: when the engine reports `success = true` with no fatal signal,
`MatchOrderMessageJSON` returns `true` without error on the envelope path,
and `MatchOrder` returns `true` without error on the typed-order path,
given the order serializes. -/
theorem engine_success_implies_match_true (g : JsGlobal) (msgJSON : String)
    (order : SignedOrder) (doc : String) :
    ((g.messageValidator msgJSON).fatal = none →
      (g.messageValidator msgJSON).success = true →
      MatchOrderMessageJSON g msgJSON = .ok true) ∧
    (order.marshalJSON = .ok doc →
      (g.orderValidator doc).fatal = none →
      (g.orderValidator doc).success = true →
      MatchOrder g order = .ok true) := by
  constructor
  · intro hf hs
    simp [MatchOrderMessageJSON, hf, hs]
  · intro hser hf hs
    simp [MatchOrder, ValidateOrder, hser, ValidateOrderJSON, hf, hs,
      SchemaValidationResult.Valid]

/-- Witness for C3: both match operations accept on the concrete
accepting engine. -/
theorem engine_success_implies_match_true_witness :
    MatchOrderMessageJSON engAccept "payload" = .ok true ∧
    MatchOrder engAccept orderGood = .ok true :=
  ⟨(engine_success_implies_match_true engAccept "payload" orderGood "\x7b\x7d").1
      rfl rfl,
   (engine_success_implies_match_true engAccept "payload" orderGood "\x7b\x7d").2
      rfl rfl rfl⟩

/-- C4: `MatchOrder` fails with an error exactly when `ValidateOrder`
fails with that error, and when `ValidateOrder` succeeds, `MatchOrder`
returns exactly the `valid` flag of the produced result. -/
theorem matchOrder_projects_validateOrder (g : JsGlobal) (order : SignedOrder) :
    (∀ e, MatchOrder g order = .error e ↔ ValidateOrder g order = .error e) ∧
    (∀ r, ValidateOrder g order = .ok r → MatchOrder g order = .ok r.valid) := by
  constructor
  · intro e
    unfold MatchOrder
    cases h : ValidateOrder g order with
    | error e' => simp
    | ok r => simp
  · intro r hr
    simp [MatchOrder, hr, SchemaValidationResult.Valid]

/-- Witness for C4: on the rejecting engine, `ValidateOrder` succeeds with
`valid = false` and `MatchOrder` projects exactly that flag; on a
serialization failure both fail with the same error. -/
theorem matchOrder_projects_validateOrder_witness :
    MatchOrder engReject orderGood = .ok false ∧
    MatchOrder engReject orderBad = .error "json: unsupported value" :=
  ⟨(matchOrder_projects_validateOrder engReject orderGood).2
      { valid := false, errors := ["js error: missing field: makerAddress"] } rfl,
   ((matchOrder_projects_validateOrder engReject orderBad).1
      "json: unsupported value").mpr rfl⟩

/-- C5: for every order whose canonical serialization succeeds,
`MatchOrder` agrees with the raw-document entry point: it equals
`ValidateOrderJSON` on the serialized document with `Valid()` projected
through (errors propagate unchanged on both sides). -/
theorem matchOrder_agrees_with_document_path (g : JsGlobal)
    (order : SignedOrder) (doc : String) (h : order.marshalJSON = .ok doc) :
    MatchOrder g order =
      (ValidateOrderJSON g doc).map SchemaValidationResult.Valid := by
  unfold MatchOrder ValidateOrder
  rw [h]
  cases hx : ValidateOrderJSON g doc with
  | error e => simp [hx, Except.map]
  | ok r => simp [hx, Except.map]

/-- Witness for C5: the two entry points agree on a concrete order under
the rejecting engine. -/
theorem matchOrder_agrees_with_document_path_witness :
    MatchOrder engReject orderGood =
      (ValidateOrderJSON engReject "\x7b\x7d").map SchemaValidationResult.Valid :=
  matchOrder_agrees_with_document_path engReject orderGood "\x7b\x7d" rfl

/-- C6 counterexample: the claimed invariant `valid = true ⇒ errors empty`
fails for an engine that reports `success = true` together with a
non-empty error list — `ValidateOrderJSON` copies both through
unconditionally. -/
theorem outcome_invariant_counterexample :
    ValidateOrderJSON engBadContract "doc" =
      .ok { valid := true, errors := ["js error: spurious"] } ∧
    ¬ (∀ (g : JsGlobal) (doc : String) (o : SchemaValidationResult),
        ValidateOrderJSON g doc = .ok o → o.valid = true → o.errors = []) := by
  constructor
  · rfl
  · intro h
    have := h engBadContract "doc"
      { valid := true, errors := ["js error: spurious"] } rfl rfl
    simp at this

/-- C6 amended: if the engine honours its contract on the given document
(`success = true` implies its raw error list is empty), then every Outcome
produced by `ValidateOrderJSON` satisfies `valid = true ⇒ errors empty`. -/
theorem outcome_invariant_under_engine_contract (g : JsGlobal) (doc : String)
    (o : SchemaValidationResult)
    (hcontract : (g.orderValidator doc).success = true →
      (g.orderValidator doc).errors = [])
    (h : ValidateOrderJSON g doc = .ok o) :
    o.valid = true → o.errors = [] := by
  intro hv
  unfold ValidateOrderJSON at h
  cases hf : (g.orderValidator doc).fatal with
  | some f => simp [hf] at h
  | none =>
      simp [hf] at h
      subst h
      have hs : (g.orderValidator doc).success = true := hv
      show (g.orderValidator doc).errors.map (fun e => "js error: " ++ e) = []
      rw [hcontract hs]
      rfl

/-- Witness for C6 amended: the accepting engine honours the contract and
its Outcome has `valid = true` with no errors. -/
theorem outcome_invariant_under_engine_contract_witness :
    ({ valid := true, errors := [] } : SchemaValidationResult).errors = [] :=
  outcome_invariant_under_engine_contract engAccept "doc"
    { valid := true, errors := [] } (fun _ => rfl) rfl rfl

/-- C7: for every non-fatal engine result, `ValidateOrderJSON` yields an
Outcome whose `valid` equals the engine's `success` flag and whose error
list has the same length as the engine's, with the i-th Outcome error
equal to `"js error: "` prepended to the engine's i-th message (so the
engine message is contained in it, order preserved). -/
theorem validateOrderJSON_mirrors_engine (g : JsGlobal) (doc : String)
    (h : (g.orderValidator doc).fatal = none) :
    ∃ o, ValidateOrderJSON g doc = .ok o ∧
      o.valid = (g.orderValidator doc).success ∧
      o.errors.length = (g.orderValidator doc).errors.length ∧
      ∀ i (hi : i < o.errors.length)
        (hi' : i < (g.orderValidator doc).errors.length),
        o.errors.get ⟨i, hi⟩ =
          "js error: " ++ (g.orderValidator doc).errors.get ⟨i, hi'⟩ := by
  refine ⟨{ valid := (g.orderValidator doc).success,
            errors := (g.orderValidator doc).errors.map
              (fun e => "js error: " ++ e) }, ?_, rfl, by simp, ?_⟩
  · simp [ValidateOrderJSON, h]
  · intro i hi hi'
    simp [List.get_eq_getElem]

/-- Witness for C7: on the rejecting engine the Outcome mirrors the
engine's single diagnostic. -/
theorem validateOrderJSON_mirrors_engine_witness :
    ∃ o, ValidateOrderJSON engReject "doc" = .ok o ∧
      o.valid = (engReject.orderValidator "doc").success ∧
      o.errors.length = (engReject.orderValidator "doc").errors.length ∧
      ∀ i (hi : i < o.errors.length)
        (hi' : i < (engReject.orderValidator "doc").errors.length),
        o.errors.get ⟨i, hi⟩ =
          "js error: " ++ (engReject.orderValidator "doc").errors.get ⟨i, hi'⟩ :=
  validateOrderJSON_mirrors_engine engReject "doc" rfl

/-- C8: when the canonical serialization of an order fails,
`ValidateOrder` returns exactly that serialization error, and the
validation engine is never invoked on that path: the result is the same
for every engine. -/
theorem validateOrder_serialization_failure (g : JsGlobal)
    (order : SignedOrder) (e : String) (h : order.marshalJSON = .error e) :
    ValidateOrder g order = .error e ∧
    ∀ g' : JsGlobal, ValidateOrder g' order = ValidateOrder g order := by
  constructor
  · simp [ValidateOrder, h]
  · intro g'
    simp [ValidateOrder, h]

/-- Witness for C8: the unserializable order fails identically under the
accepting and the fatal engines. -/
theorem validateOrder_serialization_failure_witness :
    ValidateOrder engAccept orderBad = .error "json: unsupported value" ∧
    ValidateOrder engFatal orderBad = ValidateOrder engAccept orderBad :=
  ⟨(validateOrder_serialization_failure engAccept orderBad
      "json: unsupported value" rfl).1,
   (validateOrder_serialization_failure engAccept orderBad
      "json: unsupported value" rfl).2 engFatal⟩

/-- C9: a non-fatal engine result with `success = false` and an empty
error list yields the Outcome `valid = false`, `errors = []`: the negative
verdict is taken as authoritative and no errors are synthesized. -/
theorem validateOrderJSON_false_no_errors (g : JsGlobal) (doc : String)
    (hf : (g.orderValidator doc).fatal = none)
    (hs : (g.orderValidator doc).success = false)
    (he : (g.orderValidator doc).errors = []) :
    ValidateOrderJSON g doc = .ok { valid := false, errors := [] } := by
  simp [ValidateOrderJSON, hf, hs, he]

/-- An engine that reports failure with an empty error list. -/
def engSilentReject : JsGlobal :=
  { orderValidator := fun _ => { fatal := none, success := false, errors := [] }
    messageValidator := fun _ => { fatal := none, success := false, errors := [] } }

/-- Witness for C9: the silently rejecting engine produces the empty
negative Outcome. -/
theorem validateOrderJSON_false_no_errors_witness :
    ValidateOrderJSON engSilentReject "doc" =
      .ok { valid := false, errors := [] } :=
  validateOrderJSON_false_no_errors engSilentReject "doc" rfl rfl rfl

/-- C10: for a fixed engine, the decision (and the log) of
`ValidatePubSubMessage` depends only on the payload bytes: equal payloads
give equal results whatever the cancellation context and the sender peer
identity. -/
theorem validatePubSubMessage_payload_only (g : JsGlobal)
    (ctx1 ctx2 : Context) (s1 s2 : PeerID) (m1 m2 : Message)
    (h : m1.Data = m2.Data) :
    ValidatePubSubMessage g ctx1 s1 m1 = ValidatePubSubMessage g ctx2 s2 m2 := by
  simp [ValidatePubSubMessage, h]

/-- Witness for C10: different contexts and senders, same payload, same
decision. -/
theorem validatePubSubMessage_payload_only_witness :
    ValidatePubSubMessage engReject 0 "peerA" { Data := "payload" } =
      ValidatePubSubMessage engReject 7 "peerB" { Data := "payload" } :=
  validatePubSubMessage_payload_only engReject 0 7 "peerA" "peerB"
    { Data := "payload" } { Data := "payload" } rfl

end Orderfilter
